import Mathlib

/-!
Verification of upload_sed_summary.py (SED summary upload tool).

The Python program is embedded shallowly:
  * the filesystem visible to the tool is a Filesystem value: dirs maps an
    absolute directory path to the tree enumerated below it (none when the
    path does not exist), and fileAt answers the exists() checks for a path
    string as the program builds it;
  * the pathlib slash operator is embedded as pathJoin: a right operand that
    begins with the separator is anchored and replaces everything joined so
    far, empty segments are dropped and repeated separators collapsed;
  * datetime.strptime(s, "%Y-%m-%d") is embedded as the Boolean strptimeYmd,
    following CPython _strptime: the format compiles to the anchored regular
    expression \d\d\d\d-(1[0-2]|0[1-9]|[1-9])-(3[01]|[12]\d|0[1-9]|[1-9])
    over the whole string, where \d (no re.ASCII) matches every Unicode
    decimal digit (category Nd) while the bracketed classes hold ASCII
    literals only, int() maps each matched digit to its decimal value, and
    the datetime constructor then requires 1 <= year and
    day <= days_in_month(year, month);
  * network and file reads performed inside one upload attempt are an
    UploadEnv: the result of the file read and the result of the POST,
    each either a value or a raised Python exception (PyError);
  * logging is a list of LogLine values returned next to each result.
-/

/-- Hard-coded base directory assigned in SEDSummaryUploader.__init__
(upload_sed_summary.py line 26). -/
def dataAccountsDir : String := "/Users/kaya.matsumoto/data/data_accounts"

/-- Default value of the upload_url argument (lines 24 and 227-229). -/
def defaultUploadUrl : String := "https://api.hey-watch.me/upload/analysis/sed-summary"

/-- Gregorian leap year test, as in CPython datetime. -/
def isLeapYear (y : Nat) : Bool :=
  (y % 4 == 0 && y % 100 != 0) || y % 400 == 0

/-- Number of days of month m in year y, as in CPython datetime. -/
def daysInMonth (y m : Nat) : Nat :=
  if m == 2 then (if isLeapYear y then 29 else 28)
  else if m == 4 || m == 6 || m == 9 || m == 11 then 30
  else 31

/-- First code points of the runs of ten Unicode decimal digits (category Nd,
Unicode 14.0, as enumerated by the unicodedata module): every Nd character
sits in a contiguous run digit-0 .. digit-9, CPython re \d over str patterns
matches exactly these characters, and int() maps each to its offset in its
run. -/
def ndRangeStarts : List Nat := [
  48, 1632, 1776, 1984, 2406, 2534, 2662, 2790, 2918, 3046, 3174, 3302, 3430, 3558, 3664, 3792,
  3872, 4160, 4240, 6112, 6160, 6470, 6608, 6784, 6800, 6992, 7088, 7232, 7248, 42528, 43216,
  43264, 43472, 43504, 43600, 44016, 65296, 66720, 68912, 69734, 69872, 69942, 70096, 70384,
  70736, 70864, 71248, 71360, 71472, 71904, 72016, 72784, 73040, 73120, 92768, 92864, 93008,
  120782, 123200, 123632, 125264, 130032]

/-- Decimal value of a Unicode decimal digit (category Nd), none for every
other character: what re \d accepts and int() converts in CPython. -/
def digitVal (c : Char) : Option Nat :=
  (ndRangeStarts.find? fun s => decide (s ≤ c.toNat) && decide (c.toNat < s + 10)).map
    fun s => c.toNat - s

/-- The %Y field of _strptime: regular expression \d\d\d\d, four Unicode
decimal digits, converted by int(). -/
def matchYear (s : List Char) : Option Nat :=
  match s with
  | [c0, c1, c2, c3] =>
    match digitVal c0, digitVal c1, digitVal c2, digitVal c3 with
    | some v0, some v1, some v2, some v3 => some (((v0 * 10 + v1) * 10 + v2) * 10 + v3)
    | _, _, _, _ => none
  | _ => none

/-- The %m field of _strptime: regular expression 1[0-2]|0[1-9]|[1-9], whose
character classes hold ASCII literals only. -/
def matchMonth (s : List Char) : Option Nat :=
  match s with
  | [c] => if c.isDigit && c != '0' then some (c.toNat - 48) else none
  | [c0, c1] =>
    if c0 == '0' && c1.isDigit && c1 != '0' then some (c1.toNat - 48)
    else if c0 == '1' && (c1 == '0' || c1 == '1' || c1 == '2') then some (10 + (c1.toNat - 48))
    else none
  | _ => none

/-- The %d field of _strptime: regular expression 3[01]|[12]\d|0[1-9]|[1-9];
only the \d after [12] accepts any Unicode decimal digit, the bracketed
classes hold ASCII literals. -/
def matchDay (s : List Char) : Option Nat :=
  match s with
  | [c] => if c.isDigit && c != '0' then some (c.toNat - 48) else none
  | [c0, c1] =>
    if c0 == '3' && (c1 == '0' || c1 == '1') then some (30 + (c1.toNat - 48))
    else if (c0 == '1' || c0 == '2') && (digitVal c1).isSome then
      some ((c0.toNat - 48) * 10 + (digitVal c1).getD 0)
    else if c0 == '0' && c1.isDigit && c1 != '0' then some (c1.toNat - 48)
    else none
  | _ => none

/-- Fields of a character list split at a separator character. -/
def splitOnSep (sep : Char) : List Char → List (List Char)
  | [] => [[]]
  | c :: rest =>
    if c == sep then [] :: splitOnSep sep rest
    else
      match splitOnSep sep rest with
      | h :: t => (c :: h) :: t
      | [] => [[c]]

/-- Fields of a character list split at the dash character. -/
def splitOnDash : List Char → List (List Char) :=
  splitOnSep '-'

/-- Embedding of datetime.strptime(s, "%Y-%m-%d") succeeding (used at lines
69-72 and 243-248): the three dash-separated fields match the _strptime
patterns for %Y, %m, %d over the whole string, and datetime(year, month, day)
accepts the values. -/
def strptimeYmd (s : String) : Bool :=
  match splitOnDash s.toList with
  | [y, m, d] =>
    match matchYear y, matchMonth m, matchDay d with
    | some yv, some mv, some dv => decide (1 ≤ yv) && decide (dv ≤ daysInMonth yv mv)
    | _, _, _ => false
  | _ => false

/-- Entry enumerated by date_dir iteration: its name, whether it is a
directory, and whether the file name/sed-summary/result.json exists under it. -/
structure DateEntry where
  name : String
  isDir : Bool
  hasSummaryFile : Bool
deriving DecidableEq

/-- Entry enumerated by base_dir iteration: its name, whether it is a
directory, and the entries inside it. -/
structure DeviceEntry where
  name : String
  isDir : Bool
  dates : List DateEntry
deriving DecidableEq

/-- Directory tree under one root, in filesystem enumeration order. -/
structure BaseTree where
  devices : List DeviceEntry
deriving DecidableEq

/-- The filesystem boundary: dirs is the tree enumerated below an absolute
directory path (none when that directory does not exist), as consulted by
the exists() and iterdir() calls of the bulk scan at lines 51-77; fileAt
answers the exists() check at line 88 for a path string exactly as the
program builds it. The operating system resolves dot-dot components behind
this boundary, so a key containing them may denote a file outside every
textual prefix of the key. -/
structure Filesystem where
  dirs : String → Option BaseTree
  fileAt : String → Bool

/-- A filesystem with no directories and no files at all. -/
def emptyFs : Filesystem :=
  ⟨fun _ => none, fun _ => false⟩

/-- One application of the pathlib slash operator on POSIX path strings
(lines 74 and 86): the right operand is cut into its non-empty segments; if
it begins with the separator it is anchored and replaces everything joined
so far, otherwise its segments are appended. Repeated separators collapse
and an operand with no segments leaves the path unchanged, as in pathlib;
the POSIX double-slash root special case is not modelled. -/
def pathJoin (p q : String) : String :=
  let segs := (splitOnSep '/' q.toList).filter fun s => !s.isEmpty
  match q.toList with
  | '/' :: _ => "/" ++ String.mk (List.intercalate ['/'] segs)
  | _ =>
    if segs.isEmpty then p
    else if p = "/" then "/" ++ String.mk (List.intercalate ['/'] segs)
    else p ++ "/" ++ String.mk (List.intercalate ['/'] segs)

/-- Path base / device_id / date / sed-summary / result.json as built by the
pathlib joins at lines 74 and 86: a device_id that is an absolute path
discards the base. -/
def summaryPath (base device_id date : String) : String :=
  pathJoin (pathJoin (pathJoin (pathJoin base device_id) date) "sed-summary") "result.json"

/-- Whether a path string lies textually below the hard-coded base
directory. -/
def pathUnderBase (p : String) : Bool :=
  (dataAccountsDir ++ "/").toList.isPrefixOf p.toList

/-- One log record emitted by the tool. -/
inductive LogLine where
  | warnBaseMissing (path : String)
  | debugFound (device_id date : String)
  | infoTotalFound (n : Nat)
  | warnFileMissing (path : String)
  | infoUploadStart (device_id date : String)
  | infoUploadSuccess (device_id date : String)
  | errorHttp (device_id date : String) (status : Nat) (body : String)
  | errorClient (device_id date msg : String)
  | errorJson (device_id date msg : String)
  | errorFileNotFound (path : String)
  | errorUnexpected (device_id date msg : String)
deriving DecidableEq

/-- Python exception raised inside one upload attempt, one constructor per
except clause at lines 130-141. -/
inductive PyError where
  | clientError (msg : String)
  | jsonDecodeError (msg : String)
  | fileNotFound
  | otherError (msg : String)
deriving DecidableEq

/-- HTTP response: status plus the body text read for logging. -/
structure HttpResponse where
  status : Nat
  body : String
deriving DecidableEq

/-- One part of the multipart form body. -/
structure FormPart where
  fieldName : String
  value : String
  filename : Option String
  contentType : Option String
deriving DecidableEq

/-- Form built at lines 107-112: the file content under field file with
filename result.json and content type application/json, then device_id and
date as plain fields. -/
def buildFormData (file_content device_id date : String) : List FormPart :=
  [⟨"file", file_content, some "result.json", some "application/json"⟩,
   ⟨"device_id", device_id, none, none⟩,
   ⟨"date", date, none, none⟩]

/-- Environment of one upload attempt: the outcome of the file read at lines
103-104 and, given the target URL and the form, the outcome of the POST at
lines 115-119; each either a value or a raised PyError. -/
structure UploadEnv where
  readFile : Except PyError String
  post : String → List FormPart → Except PyError HttpResponse

/-- The network and filesystem responses each (device_id, date) target would
see during its upload attempt. -/
abbrev Net := String → String → UploadEnv

/-- An environment in which every file read and every POST raises. -/
def failNet : Net :=
  fun _ _ => ⟨Except.error PyError.fileNotFound, fun _ _ => Except.error PyError.fileNotFound⟩

/-- An upload environment whose file read and POST both succeed, the POST
answering status 200 with an empty body. -/
def okEnv : UploadEnv :=
  ⟨Except.ok "{}", fun _ _ => Except.ok ⟨200, ""⟩⟩

/-- An environment in which every upload attempt succeeds with status 200. -/
def okNet : Net :=
  fun _ _ => okEnv

/-- A filesystem with no directory trees whose only file is
/evil/2025-01-01/sed-summary/result.json, a path outside the base
directory. -/
def escapeFs : Filesystem :=
  ⟨fun _ => none, fun p => p == "/evil/2025-01-01/sed-summary/result.json"⟩

/-- Aggregate result of a run: the dictionary built at lines 151, 176-180
and 211-215. -/
structure RunResult where
  success : Nat
  failed : Nat
  total : Nat
deriving DecidableEq

/-- State held by SEDSummaryUploader (lines 24-27); ssl_context is a pure
function of verify_ssl and the logger carries no state, so neither is a
field. -/
structure SEDSummaryUploader where
  upload_url : String
  base_dir : String
  verify_ssl : Bool
deriving DecidableEq

/-- Constructor __init__ at lines 24-27: base_dir is assigned the literal
dataAccountsDir whatever the arguments are. -/
def SEDSummaryUploader.init (upload_url : String) (verify_ssl : Bool) : SEDSummaryUploader :=
  ⟨upload_url, dataAccountsDir, verify_ssl⟩

/-- find_all_summary_files (lines 44-80): if base_dir does not exist, warn
and return the empty list; otherwise iterate the entries of base_dir,
skipping non-directories, iterate each device directory, skipping
non-directories, names failing strptime, and names whose
sed-summary/result.json does not exist, and collect the rest in order. -/
def SEDSummaryUploader.find_all_summary_files (u : SEDSummaryUploader) (fs : Filesystem) :
    List (String × String × String) × List LogLine :=
  match fs.dirs u.base_dir with
  | none => ([], [LogLine.warnBaseMissing u.base_dir])
  | some tree =>
    let files := tree.devices.flatMap fun de =>
      if de.isDir then
        de.dates.filterMap fun dt =>
          if dt.isDir && strptimeYmd dt.name && dt.hasSummaryFile then
            some (de.name, dt.name, summaryPath u.base_dir de.name dt.name)
          else none
      else []
    (files,
      (files.map fun t => LogLine.debugFound t.1 t.2.1) ++ [LogLine.infoTotalFound files.length])

/-- find_summary_file (lines 82-92): join the expected path from base_dir,
device_id and date, return it when a file exists there, otherwise warn and
return none. -/
def SEDSummaryUploader.find_summary_file (u : SEDSummaryUploader) (fs : Filesystem)
    (device_id date : String) : Option String × List LogLine :=
  let file_path := summaryPath u.base_dir device_id date
  if fs.fileAt file_path then (some file_path, [])
  else (none, [LogLine.warnFileMissing file_path])

/-- Log line produced by the except clause handling e (lines 130-141). -/
def exceptLog (device_id date file_path : String) : PyError → LogLine
  | PyError.clientError msg => LogLine.errorClient device_id date msg
  | PyError.jsonDecodeError msg => LogLine.errorJson device_id date msg
  | PyError.fileNotFound => LogLine.errorFileNotFound file_path
  | PyError.otherError msg => LogLine.errorUnexpected device_id date msg

/-- upload_summary_file (lines 94-141) with the try and except clauses
desugared: log the start, read the file (a raise lands in the matching
except clause, which logs and returns False), build the form, POST it to
self.upload_url (a raise lands likewise), then return True exactly on
status 200 and otherwise log the status with the body text and return
False. -/
def SEDSummaryUploader.upload_summary_file (u : SEDSummaryUploader) (env : UploadEnv)
    (device_id date file_path : String) : Bool × List LogLine :=
  let startLog : List LogLine := [LogLine.infoUploadStart device_id date]
  match env.readFile with
  | Except.error e => (false, startLog ++ [exceptLog device_id date file_path e])
  | Except.ok file_content =>
    let form_data := buildFormData file_content device_id date
    match env.post u.upload_url form_data with
    | Except.error e => (false, startLog ++ [exceptLog device_id date file_path e])
    | Except.ok response =>
      if response.status == 200 then
        (true, startLog ++ [LogLine.infoUploadSuccess device_id date])
      else
        (false, startLog ++ [LogLine.errorHttp device_id date response.status response.body])

/-- upload_all_summaries (lines 143-180): discover, return zeros when the
list is empty, otherwise award each file one increment of exactly one
counter according to its upload outcome and report the counts with the
list length as total. -/
def SEDSummaryUploader.upload_all_summaries (u : SEDSummaryUploader) (fs : Filesystem)
    (net : Net) : RunResult :=
  let summary_files := (u.find_all_summary_files fs).1
  if summary_files.isEmpty then ⟨0, 0, 0⟩
  else
    let counts := summary_files.foldl
      (fun (acc : Nat × Nat) t =>
        if (u.upload_summary_file (net t.1 t.2.1) t.1 t.2.1 t.2.2).1 then (acc.1 + 1, acc.2)
        else (acc.1, acc.2 + 1))
      (0, 0)
    ⟨counts.1, counts.2, summary_files.length⟩

/-- upload_specific_summary (lines 182-198): single-target lookup, False when
the file is absent, otherwise the outcome of uploading it. -/
def SEDSummaryUploader.upload_specific_summary (u : SEDSummaryUploader) (fs : Filesystem)
    (net : Net) (device_id date : String) : Bool :=
  match (u.find_summary_file fs device_id date).1 with
  | none => false
  | some file_path => (u.upload_summary_file (net device_id date) device_id date file_path).1

/-- Python truthiness of an optional string: None and the empty string are
falsy. -/
def truthy : Option String → Bool
  | none => false
  | some s => !s.isEmpty

/-- run (lines 200-219): when both device_id and date are truthy, upload that
one file and report a total of 1; otherwise upload everything. -/
def SEDSummaryUploader.run (u : SEDSummaryUploader) (fs : Filesystem) (net : Net)
    (device_id date : Option String) : RunResult :=
  if truthy device_id && truthy date then
    let ok := u.upload_specific_summary fs net (device_id.getD "") (date.getD "")
    ⟨if ok then 1 else 0, if ok then 0 else 1, 1⟩
  else
    u.upload_all_summaries fs net

/-- Parsed command line (lines 224-232). -/
structure Args where
  device_id : Option String
  date : Option String
  upload_url : String
  verbose : Bool
deriving DecidableEq

/-- Outcome of main: one of the two early returns with a printed error
message, or a completed run. -/
inductive MainResult where
  | argPairError
  | dateFormatError
  | ran (result : RunResult)
deriving DecidableEq

/-- Uploader constructed at line 251: SEDSummaryUploader(args.upload_url),
with verify_ssl left at its default True. -/
def mainUploader (args : Args) : SEDSummaryUploader :=
  SEDSummaryUploader.init args.upload_url true

namespace UploadSedSummary

/-- main (lines 222-269): print an error and return when exactly one of
args.device_id and args.date is truthy; print an error and return when
args.date is truthy and fails strptime; otherwise construct the uploader
and run it. -/
def main (args : Args) (fs : Filesystem) (net : Net) : MainResult :=
  if (truthy args.device_id && !truthy args.date) || (!truthy args.device_id && truthy args.date) then
    MainResult.argPairError
  else if truthy args.date && !strptimeYmd (args.date.getD "") then
    MainResult.dateFormatError
  else
    MainResult.ran ((mainUploader args).run fs net args.device_id args.date)

end UploadSedSummary

/-- Observable event of a batch run: discovery returning its n triples, and
upload attempt i starting to execute and resolving to its outcome. -/
inductive BatchEv where
  | discoveryDone (n : Nat)
  | uploadStart (i : Nat)
  | uploadEnd (i : Nat)
deriving DecidableEq

/-- Events of upload coroutine i once it is awaited: the coroutine body runs
from its first statement to its return. -/
def uploadCoroutineEvents (i : Nat) : List BatchEv :=
  [BatchEv.uploadStart i, BatchEv.uploadEnd i]

/-- Event order of upload_all_summaries over n discovered files (lines
147-174): find_all_summary_files returns before the loop starts
(discoveryDone); line 165 calls the async method, which only builds a
coroutine object and runs none of its body; the collection loop at lines
169-174 then awaits each coroutine in creation order, and awaiting a bare
coroutine runs it from its first statement to its return before the loop
moves to the next one. -/
def upload_all_trace (n : Nat) : List BatchEv :=
  BatchEv.discoveryDone n :: (List.range n).flatMap uploadCoroutineEvents

/-- Modelled from the spec: under concurrent dispatch of the n upload tasks
over one shared connection pool, every task begins executing (it is
scheduled and runs at least to its first suspension point) before any
outcome of the batch is collected, so every uploadStart event precedes
every uploadEnd event in the trace. -/
def concurrentDispatch (n : Nat) (tr : List BatchEv) : Bool :=
  (List.range n).all fun i =>
    (List.range n).all fun j =>
      decide (tr.indexOf (BatchEv.uploadStart j) < tr.indexOf (BatchEv.uploadEnd i))

lemma foldl_count_pair {α : Type} (f : α → Bool) (l : List α) (a b : Nat) :
    (l.foldl (fun acc t => if f t then (acc.1 + 1, acc.2) else (acc.1, acc.2 + 1)) (a, b)).1 +
      (l.foldl (fun acc t => if f t then (acc.1 + 1, acc.2) else (acc.1, acc.2 + 1)) (a, b)).2 =
      a + b + l.length := by
  induction l generalizing a b with
  | nil => simp
  | cons x xs ih =>
    simp only [List.foldl_cons, List.length_cons]
    cases hx : f x
    · rw [if_neg (by simp [hx])]
      rw [ih]
      omega
    · rw [if_pos (by simp [hx])]
      rw [ih]
      omega

/-- C2: a batch run over the N discovered triples reports total = N and
success + failed = N, each triple contributing one boolean outcome to
exactly one counter, and the empty batch reports success 0, failed 0,
total 0. -/
theorem upload_all_summaries_counts (u : SEDSummaryUploader) (fs : Filesystem) (net : Net) :
    (u.upload_all_summaries fs net).total = ((u.find_all_summary_files fs).1).length ∧
    (u.upload_all_summaries fs net).success + (u.upload_all_summaries fs net).failed =
      (u.upload_all_summaries fs net).total ∧
    ((u.find_all_summary_files fs).1 = [] →
      u.upload_all_summaries fs net = ⟨0, 0, 0⟩) := by
  unfold SEDSummaryUploader.upload_all_summaries
  cases hl : (u.find_all_summary_files fs).1 with
  | nil => simp
  | cons x xs =>
    have h := foldl_count_pair
      (fun t => (u.upload_summary_file (net t.1 t.2.1) t.1 t.2.1 t.2.2).1) (x :: xs) 0 0
    exact ⟨rfl, by simpa using h, fun hc => absurd hc (by simp)⟩

lemma upload_all_summaries_total (u : SEDSummaryUploader) (fs : Filesystem) (net : Net) :
    (u.upload_all_summaries fs net).total = ((u.find_all_summary_files fs).1).length := by
  unfold SEDSummaryUploader.upload_all_summaries
  cases hl : (u.find_all_summary_files fs).1 with
  | nil => rfl
  | cons x xs => rfl

/-- C3: when an upload attempt receives an HTTP response, it succeeds exactly
when the status is 200; any other status fails whatever the body is, and
the body text appears in the failure log. -/
theorem upload_summary_file_status (u : SEDSummaryUploader) (env : UploadEnv)
    (device_id date file_path file_content : String) (response : HttpResponse)
    (hread : env.readFile = Except.ok file_content)
    (hpost : env.post u.upload_url (buildFormData file_content device_id date) =
      Except.ok response) :
    ((u.upload_summary_file env device_id date file_path).1 = true ↔ response.status = 200) ∧
    (response.status ≠ 200 →
      LogLine.errorHttp device_id date response.status response.body ∈
        (u.upload_summary_file env device_id date file_path).2) := by
  unfold SEDSummaryUploader.upload_summary_file
  simp only [hread, hpost]
  by_cases hs : response.status = 200
  · simp [hs]
  · simp [hs]

/-- Witness for upload_summary_file_status at a concrete 200 response. -/
theorem upload_summary_file_status_witness :
    (((SEDSummaryUploader.init defaultUploadUrl true).upload_summary_file okEnv "dev"
          "2025-01-01" (summaryPath dataAccountsDir "dev" "2025-01-01")).1 = true ↔
      (HttpResponse.mk 200 "").status = 200) ∧
    ((HttpResponse.mk 200 "").status ≠ 200 →
      LogLine.errorHttp "dev" "2025-01-01" (HttpResponse.mk 200 "").status
          (HttpResponse.mk 200 "").body ∈
        ((SEDSummaryUploader.init defaultUploadUrl true).upload_summary_file okEnv "dev"
          "2025-01-01" (summaryPath dataAccountsDir "dev" "2025-01-01")).2) :=
  upload_summary_file_status (SEDSummaryUploader.init defaultUploadUrl true) okEnv "dev"
    "2025-01-01" (summaryPath dataAccountsDir "dev" "2025-01-01") "{}"
    (HttpResponse.mk 200 "") rfl rfl

/-- C4: an upload attempt resolves to False on every error path, whether the
file read raises or the POST raises, whatever the exception; and because
every attempt resolves to a boolean, a batch always runs to completion with
one counted outcome per discovered file. -/
theorem upload_summary_file_error_paths (u : SEDSummaryUploader) (env : UploadEnv)
    (device_id date file_path : String) :
    (∀ e, env.readFile = Except.error e →
      (u.upload_summary_file env device_id date file_path).1 = false) ∧
    (∀ file_content e, env.readFile = Except.ok file_content →
      env.post u.upload_url (buildFormData file_content device_id date) = Except.error e →
      (u.upload_summary_file env device_id date file_path).1 = false) ∧
    (∀ fs net, (u.upload_all_summaries fs net).total =
      ((u.find_all_summary_files fs).1).length) := by
  refine ⟨?_, ?_, ?_⟩
  · intro e he
    unfold SEDSummaryUploader.upload_summary_file
    simp [he]
  · intro file_content e hok he
    unfold SEDSummaryUploader.upload_summary_file
    simp [hok, he]
  · intro fs net
    exact upload_all_summaries_total u fs net

/-- C5: when the base directory does not exist, bulk discovery returns the
empty list, emitting one warning, and nothing is raised. -/
theorem find_all_summary_files_missing_root (u : SEDSummaryUploader) (fs : Filesystem)
    (h : fs.dirs u.base_dir = none) :
    u.find_all_summary_files fs = ([], [LogLine.warnBaseMissing u.base_dir]) := by
  unfold SEDSummaryUploader.find_all_summary_files
  rw [h]

/-- Witness for find_all_summary_files_missing_root on the empty filesystem. -/
theorem find_all_summary_files_missing_root_witness :
    (SEDSummaryUploader.init defaultUploadUrl true).find_all_summary_files emptyFs =
      ([], [LogLine.warnBaseMissing dataAccountsDir]) :=
  find_all_summary_files_missing_root (SEDSummaryUploader.init defaultUploadUrl true)
    emptyFs rfl

/-- C6: a single-file run over a truthy (deviceId, date) pair whose expected
file does not exist gets a not-found signal from the single-target lookup,
no exception, and reports success 0, failed 1, total 1. -/
theorem run_single_missing_file (u : SEDSummaryUploader) (fs : Filesystem) (net : Net)
    (device_id date : String) (hdev : device_id ≠ "") (hdate : date ≠ "")
    (h : fs.fileAt (summaryPath u.base_dir device_id date) = false) :
    (u.find_summary_file fs device_id date).1 = none ∧
    u.run fs net (some device_id) (some date) = ⟨0, 1, 1⟩ := by
  have hfind : (u.find_summary_file fs device_id date).1 = none := by
    unfold SEDSummaryUploader.find_summary_file
    simp [h]
  refine ⟨hfind, ?_⟩
  have htd : truthy (some device_id) = true := by
    simp only [truthy, Bool.not_eq_true']
    exact Bool.eq_false_iff.2 fun hT => hdev ((String.isEmpty_iff device_id).1 hT)
  have hta : truthy (some date) = true := by
    simp only [truthy, Bool.not_eq_true']
    exact Bool.eq_false_iff.2 fun hT => hdate ((String.isEmpty_iff date).1 hT)
  unfold SEDSummaryUploader.run SEDSummaryUploader.upload_specific_summary
  simp [htd, hta, hfind]

/-- Witness for run_single_missing_file on the empty filesystem. -/
theorem run_single_missing_file_witness :
    ((SEDSummaryUploader.init defaultUploadUrl true).find_summary_file emptyFs "dev"
        "2025-01-01").1 = none ∧
    (SEDSummaryUploader.init defaultUploadUrl true).run emptyFs failNet (some "dev")
        (some "2025-01-01") = ⟨0, 1, 1⟩ :=
  run_single_missing_file (SEDSummaryUploader.init defaultUploadUrl true) emptyFs failNet
    "dev" "2025-01-01" (by decide) (by decide) rfl

/-- Counterexample to C7 as stated: the invocation that supplies only
device-id, with the empty string as its value, supplies exactly one of the
two options, yet main does not abort with the argument-pair error; it falls
through to a full batch run. -/
theorem main_one_sided_args_counterexample :
    UploadSedSummary.main ⟨some "", none, defaultUploadUrl, false⟩ emptyFs failNet =
      MainResult.ran ⟨0, 0, 0⟩ := rfl

/-- C7 (amended): when exactly one of device-id and date is supplied with a
non-empty value, main prints the pairing error and returns before building
the uploader, so the outcome is the error marker and is the same whatever
the filesystem and network hold. -/
theorem main_one_sided_args_aborts (args : Args) (fs fs' : Filesystem) (net net' : Net)
    (h : truthy args.device_id ≠ truthy args.date) :
    UploadSedSummary.main args fs net = MainResult.argPairError ∧
    UploadSedSummary.main args fs net = UploadSedSummary.main args fs' net' := by
  have hc : ((truthy args.device_id && !truthy args.date) ||
      (!truthy args.device_id && truthy args.date)) = true := by
    cases hd : truthy args.device_id <;> cases ha : truthy args.date <;>
      simp_all
  unfold UploadSedSummary.main
  rw [hc]
  exact ⟨rfl, rfl⟩

/-- Witness for main_one_sided_args_aborts: only device-id supplied, with a
non-empty value. -/
theorem main_one_sided_args_aborts_witness :
    UploadSedSummary.main ⟨some "dev", none, defaultUploadUrl, false⟩ emptyFs failNet =
      MainResult.argPairError ∧
    UploadSedSummary.main ⟨some "dev", none, defaultUploadUrl, false⟩ emptyFs failNet =
      UploadSedSummary.main ⟨some "dev", none, defaultUploadUrl, false⟩ emptyFs failNet :=
  main_one_sided_args_aborts ⟨some "dev", none, defaultUploadUrl, false⟩ emptyFs emptyFs
    failNet failNet (by decide)

/-- C9: at a batch of two discovered files the event order produced by
upload_all_summaries is discovery first, then upload 0 from start to end,
then upload 1 from start to end: upload 1 starts only after the outcome of
upload 0 is already collected, so the trace fails the concurrent-dispatch
property claimed by the docstring at lines 144-146 and 162, while the
outcomes are still collected in creation order. -/
theorem upload_all_trace_sequential_at_two :
    upload_all_trace 2 = [BatchEv.discoveryDone 2, BatchEv.uploadStart 0, BatchEv.uploadEnd 0,
      BatchEv.uploadStart 1, BatchEv.uploadEnd 1] ∧
    concurrentDispatch 2 (upload_all_trace 2) = false := by
  exact ⟨rfl, by decide⟩

lemma find_all_summary_files_congr (u : SEDSummaryUploader) (fs fs' : Filesystem)
    (h : fs.dirs u.base_dir = fs'.dirs u.base_dir) :
    u.find_all_summary_files fs = u.find_all_summary_files fs' := by
  unfold SEDSummaryUploader.find_all_summary_files
  rw [h]

lemma upload_all_summaries_congr (u : SEDSummaryUploader) (fs fs' : Filesystem) (net : Net)
    (h : fs.dirs u.base_dir = fs'.dirs u.base_dir) :
    u.upload_all_summaries fs net = u.upload_all_summaries fs' net := by
  unfold SEDSummaryUploader.upload_all_summaries
  rw [find_all_summary_files_congr u fs fs' h]

lemma find_summary_file_congr (u : SEDSummaryUploader) (fs fs' : Filesystem)
    (device_id date : String)
    (h : fs.fileAt (summaryPath u.base_dir device_id date) =
      fs'.fileAt (summaryPath u.base_dir device_id date)) :
    u.find_summary_file fs device_id date = u.find_summary_file fs' device_id date := by
  simp only [SEDSummaryUploader.find_summary_file]
  rw [h]

lemma run_congr_batch (u : SEDSummaryUploader) (fs fs' : Filesystem) (net : Net)
    (device_id date : Option String) (hmode : (truthy device_id && truthy date) = false)
    (h : fs.dirs u.base_dir = fs'.dirs u.base_dir) :
    u.run fs net device_id date = u.run fs' net device_id date := by
  unfold SEDSummaryUploader.run
  rw [hmode]
  exact upload_all_summaries_congr u fs fs' net h

lemma run_congr_single (u : SEDSummaryUploader) (fs fs' : Filesystem) (net : Net)
    (device_id date : Option String) (hmode : (truthy device_id && truthy date) = true)
    (h : fs.fileAt (summaryPath u.base_dir (device_id.getD "") (date.getD "")) =
      fs'.fileAt (summaryPath u.base_dir (device_id.getD "") (date.getD ""))) :
    u.run fs net device_id date = u.run fs' net device_id date := by
  unfold SEDSummaryUploader.run SEDSummaryUploader.upload_specific_summary
  rw [hmode, find_summary_file_congr u fs fs' (device_id.getD "") (date.getD "") h]
  rfl

/-- C10 (amended): the root attribute is hard-coded: the constructor assigns
the literal dataAccountsDir whatever its arguments, the uploader main
constructs carries that literal, and a batch run reads the filesystem only
through the tree below that one path; a single-target run, however, reads
the filesystem only through the one path pathlib-joined from the base and
the two arguments, a path that leaves the base when device-id is given as
an absolute path. -/
theorem base_dir_hard_coded :
    (∀ url ssl, (SEDSummaryUploader.init url ssl).base_dir = dataAccountsDir) ∧
    (∀ args, (mainUploader args).base_dir = dataAccountsDir) ∧
    (∀ args (fs fs' : Filesystem) (net : Net),
      (truthy args.device_id && truthy args.date) = false →
      fs.dirs dataAccountsDir = fs'.dirs dataAccountsDir →
      UploadSedSummary.main args fs net = UploadSedSummary.main args fs' net) ∧
    (∀ args (fs fs' : Filesystem) (net : Net),
      (truthy args.device_id && truthy args.date) = true →
      fs.fileAt (summaryPath dataAccountsDir (args.device_id.getD "") (args.date.getD "")) =
        fs'.fileAt (summaryPath dataAccountsDir (args.device_id.getD "") (args.date.getD "")) →
      UploadSedSummary.main args fs net = UploadSedSummary.main args fs' net) := by
  refine ⟨fun url ssl => rfl, fun args => rfl, ?_, ?_⟩
  · intro args fs fs' net hmode h
    unfold UploadSedSummary.main
    split
    · rfl
    · split
      · rfl
      · exact congrArg MainResult.ran
          (run_congr_batch (mainUploader args) fs fs' net args.device_id args.date hmode h)
  · intro args fs fs' net hmode h
    unfold UploadSedSummary.main
    split
    · rfl
    · split
      · rfl
      · exact congrArg MainResult.ran
          (run_congr_single (mainUploader args) fs fs' net args.device_id args.date hmode h)

/-- Counterexample to C10 as stated: with device-id supplied as the absolute
path /evil, the pathlib join at line 86 discards the hard-coded base, so the
single-target lookup consults /evil/2025-01-01/sed-summary/result.json; two
filesystems that agree on every directory tree and on every file lying
under the base directory still drive main to different outcomes, one a
successful upload of the escaped file, the other a not-found failure. -/
theorem base_dir_escape_counterexample :
    summaryPath dataAccountsDir "/evil" "2025-01-01" =
      "/evil/2025-01-01/sed-summary/result.json" ∧
    (∀ p : String, escapeFs.dirs p = emptyFs.dirs p) ∧
    (∀ p : String, pathUnderBase p = true → escapeFs.fileAt p = emptyFs.fileAt p) ∧
    UploadSedSummary.main ⟨some "/evil", some "2025-01-01", defaultUploadUrl, false⟩
        escapeFs okNet = MainResult.ran ⟨1, 0, 1⟩ ∧
    UploadSedSummary.main ⟨some "/evil", some "2025-01-01", defaultUploadUrl, false⟩
        emptyFs okNet = MainResult.ran ⟨0, 1, 1⟩ := by
  refine ⟨by decide, fun p => rfl, ?_, by decide, by decide⟩
  intro p hp
  show (p == "/evil/2025-01-01/sed-summary/result.json") = false
  cases hq : p == "/evil/2025-01-01/sed-summary/result.json"
  · rfl
  · exfalso
    have hpe : p = "/evil/2025-01-01/sed-summary/result.json" := eq_of_beq hq
    rw [hpe] at hp
    exact absurd hp (by decide)
